import Mathlib

/-!
Verification of the static/SPA request router and response policy layer of the
stacexplorer repository, shallowly embedded from `src/server.py` and
`src/serve.py`.

Request paths are modelled as lists of characters (so that every path
operation is structurally recursive and computes in the kernel); the
filesystem is an abstract predicate `fs : Chars → Bool` telling whether a
root-relative path string names an existing file. The code consults it at
two places with differently normalized strings, and the model mirrors both:
the router's `Path(clean_path).exists()` check receives the undecoded
stripped path, while the file-serving primitive receives the
percent-decoded, normalized result of `translate_path`.
-/

/-- Character strings, as lists of characters. -/
abbrev Chars := List Char

/-- Split a character list on a single-character separator, matching Python's
`str.split(sep)` for a one-character `sep`: the empty string yields `[""]`,
and adjacent separators yield empty fields. -/
def splitOnChar (sep : Char) : Chars → List Chars
  | [] => [[]]
  | c :: rest =>
      let r := splitOnChar sep rest
      if c == sep then [] :: r
      else
        match r with
        | [] => [[c]]
        | h :: t => (c :: h) :: t

/-- Lower-case a single ASCII character, as `str.lower` does on ASCII. -/
def charLower (c : Char) : Char :=
  if 'A' ≤ c ∧ c ≤ 'Z' then Char.ofNat (c.toNat + 32) else c

/-- The params split of `urllib.parse.urlparse` (`_splitparams`): drop a
`;params` part from the final path segment — the first `;` at or after the
last `/` (or anywhere, if the path has no `/`) truncates the path. -/
def dropParams (url : Chars) : Chars :=
  if url.contains '/' then
    let r := url.reverse
    let segRev := r.takeWhile (fun c => c != '/')
    let preRev := r.dropWhile (fun c => c != '/')
    preRev.reverse ++ segRev.reverse.takeWhile (fun c => c != ';')
  else url.takeWhile (fun c => c != ';')

/-- The path component of a request target, as computed by
`urllib.parse.urlparse(self.path).path` for a scheme-less target: a target
starting with `//` first has its netloc (up to the next `/`, `?` or `#`)
removed, then the query/fragment tail (from the first `?` or `#`) is cut,
then `;params` are split off the final segment. No percent-decoding
happens here. -/
def urlPath (p : Chars) : Chars :=
  let afterNetloc :=
    if p.take 2 == ['/', '/'] then
      (p.drop 2).dropWhile (fun c => c != '/' && c != '?' && c != '#')
    else p
  dropParams (afterNetloc.takeWhile (fun c => c != '?' && c != '#'))

/-- `path.lstrip('/')` applied to the URL path: strip all leading slashes
(server.py line 38, `clean_path`). -/
def cleanPath (p : Chars) : Chars :=
  (urlPath p).dropWhile (· == '/')

/-- The components of a path as parsed by `pathlib.PurePosixPath`: split on
slashes, dropping empty components and bare-dot components. -/
def pyParts (p : Chars) : List Chars :=
  (splitOnChar '/' p).filter (fun s => !s.isEmpty && s != ['.'])

/-- `pathlib.PurePath(p).name`: the final path component, or empty. -/
def pyName (p : Chars) : Chars :=
  (pyParts p).getLastD []

/-- The index of the last occurrence of a dot in a character list
(the found case of `str.rfind('.')`). -/
def lastDotIdx (cs : Chars) : Option Nat :=
  ((List.range cs.length).filter (fun i => cs.getD i ' ' == '.')).getLast?

/-- `pathlib.PurePath(p).suffix`: the final component from its last dot,
provided that dot is neither the first nor the last character of the
component; otherwise empty. -/
def pySuffix (p : Chars) : Chars :=
  let n := pyName p
  match lastDotIdx n with
  | some i => if 0 < i ∧ i < n.length - 1 then n.drop i else []
  | none => []

/-- The static-extension set of server.py lines 43-46 (note: no `.mjs`). -/
def staticExtensions : List Chars :=
  [".html".toList, ".css".toList, ".js".toList, ".json".toList, ".png".toList,
   ".jpg".toList, ".jpeg".toList, ".gif".toList, ".svg".toList, ".ico".toList,
   ".woff".toList, ".woff2".toList, ".ttf".toList, ".eot".toList, ".map".toList]

/-- The SPA route name list of server.py lines 65-69. -/
def spaRoutes : List Chars := ["view".toList, "browser".toList, "catalog".toList]

/-- The SPA-route test of server.py lines 72-80: empty path, the literal
entry-document path, or a plain string-prefix match against `spaRoutes`. -/
def isSpaRoute (clean : Chars) : Bool :=
  clean == [] || clean == "index.html".toList ||
    spaRoutes.any (fun r => r.isPrefixOf clean)

/-- The four ways server.py's `do_GET` can dispatch a request. -/
inductive RouteOutcome where
  | serveStatic
  | serveStaticMissing
  | serveEntryDocument
  | serveFallback
deriving DecidableEq, Repr

/-- The routing decision of server.py `do_GET` (lines 30-91): a recognized
static extension is served or 404ed according to on-disk existence; otherwise
SPA routes are rewritten to the entry document; everything else is handed to
the generic file server unchanged. -/
def classify (fs : Chars → Bool) (reqPath : Chars) : RouteOutcome :=
  let clean := cleanPath reqPath
  let hasExt := staticExtensions.contains ((pySuffix clean).map charLower)
  let fileExists := fs clean
  if hasExt && fileExists then .serveStatic
  else if hasExt && !fileExists then .serveStaticMissing
  else if isSpaRoute clean then .serveEntryDocument
  else .serveFallback

/-- A simplified response: which file is streamed back, or not-found. -/
inductive Response where
  | ok (file : Chars)
  | notFound
deriving DecidableEq, Repr

/-- The numeric value of a hexadecimal digit, if any. -/
def hexDigitVal (c : Char) : Option Nat :=
  if '0' ≤ c ∧ c ≤ '9' then some (c.toNat - 48)
  else if 'a' ≤ c ∧ c ≤ 'f' then some (c.toNat - 87)
  else if 'A' ≤ c ∧ c ≤ 'F' then some (c.toNat - 55)
  else none

/-- Percent-decoding as `urllib.parse.unquote` behaves on ASCII escapes:
`%xy` with two hex digits becomes the character with that code, anything
else is copied through. Used by `translate_path` inside the file-serving
primitive, and by the spec's decode-first router description. -/
def percentDecode : Chars → Chars
  | [] => []
  | '%' :: a :: b :: rest =>
      match hexDigitVal a, hexDigitVal b with
      | some ha, some hb => Char.ofNat (16 * ha + hb) :: percentDecode rest
      | _, _ => '%' :: percentDecode (a :: b :: rest)
  | c :: rest => c :: percentDecode rest

/-- The combined effect of `posixpath.normpath` and `translate_path`'s
component filter on the split path: empty and dot components are dropped, a
dot-dot component cancels the preceding component (or is dropped when there
is none — at the root, or leading in a relative path, where the filter
discards it). -/
def resolveComponents (acc : List Chars) : List Chars → List Chars
  | [] => acc.reverse
  | w :: ws =>
      if w == "..".toList then
        match acc with
        | [] => resolveComponents [] ws
        | _ :: rest => resolveComponents rest ws
      else if w.isEmpty || w == ['.'] then resolveComponents acc ws
      else resolveComponents (w :: acc) ws

/-- `SimpleHTTPRequestHandler.translate_path` on `self.path`, relative to
the served root: cut the query/fragment tail, remember a trailing slash,
percent-decode, then normalize — drop empty/dot components and resolve
dot-dots — and re-append the trailing slash. The result is the
root-relative file path the primitive opens. -/
def translatePath (reqPath : Chars) : Chars :=
  let noQF := reqPath.takeWhile (fun c => c != '?' && c != '#')
  let trimmed := (noQF.reverse.dropWhile (fun c => c.isWhitespace)).reverse
  let resolved := List.intercalate ['/']
    (resolveComponents [] (splitOnChar '/' (percentDecode noQF)))
  if trimmed.getLast? == some '/' then resolved ++ ['/'] else resolved

/-- The generic file-serving primitive (`super().do_GET()`) on a request
target: resolve the target through `translate_path` and stream that file if
it exists under the served root, else a 404 response. -/
def serveAt (fs : Chars → Bool) (target : Chars) : Response :=
  if fs (translatePath target) then .ok (translatePath target) else .notFound

/-- The response produced by server.py `do_GET`: every branch ends in
`super().do_GET()`, on the original request target except in the SPA
branch, where the target is first replaced by `/index.html` (line 85). -/
def respond (fs : Chars → Bool) (reqPath : Chars) : Response :=
  match classify fs reqPath with
  | .serveStatic => serveAt fs reqPath
  | .serveStaticMissing => serveAt fs reqPath
  | .serveEntryDocument => serveAt fs "/index.html".toList
  | .serveFallback => serveAt fs reqPath

/-- A filesystem holding exactly the entry document `index.html`. -/
def fsEntryOnly : Chars → Bool := fun s => s == "index.html".toList

/-! ### Response policy layer: CORS, cache control (serve.py / server.py) -/

/-- The three CORS headers both handlers add unconditionally in
`end_headers` (serve.py lines 30-32, server.py lines 95-97). -/
def corsHeaders : List (String × String) :=
  [("Access-Control-Allow-Origin", "*"),
   ("Access-Control-Allow-Methods", "GET, POST, OPTIONS"),
   ("Access-Control-Allow-Headers", "Content-Type")]

/-- The extension tuple of serve.py line 35 used for the cache decision. -/
def cacheControlExts : List Chars :=
  [".js".toList, ".css".toList, ".png".toList, ".jpg".toList,
   ".svg".toList, ".woff".toList, ".woff2".toList]

/-- serve.py lines 34-38: the Cache-Control value chosen from
`self.path.endswith((...))`. -/
def cacheValue (path : Chars) : String :=
  if cacheControlExts.any (fun e => e.isSuffixOf path) then "public, max-age=3600"
  else "no-cache"

/-- serve.py `end_headers` (lines 28-40): headers already sent, then the
three CORS headers, then the Cache-Control header, then the flush. -/
def endHeadersServe (path : Chars) (prev : List (String × String)) :
    List (String × String) :=
  prev ++ corsHeaders ++ [("Cache-Control", cacheValue path)]

/-- server.py `end_headers` (lines 93-98): headers already sent, then the
three CORS headers, then the flush (no cache header in this variant). -/
def endHeadersServer (prev : List (String × String)) : List (String × String) :=
  prev ++ corsHeaders

/-! ### Method dispatch and the OPTIONS handler -/

/-- A whole HTTP response: status code, headers, body. -/
structure HttpResponse where
  status : Nat
  headers : List (String × String)
  body : String
deriving DecidableEq, Repr

/-- serve.py `do_OPTIONS` (lines 42-45): `send_response(200)` followed by
`end_headers()` and nothing else, so a 200 with empty body. -/
def doOptionsServe (path : Chars) : HttpResponse :=
  { status := 200, headers := endHeadersServe path [], body := "" }

/-- The methods the server.py handler class implements: `do_GET` (overridden)
and `do_HEAD` (inherited from `SimpleHTTPRequestHandler`); the class adds no
`do_OPTIONS`. -/
def serverPyMethods : List String := ["GET", "HEAD"]

/-- Modelled from the spec and the Python library contract it cites: the
underlying generic request loop (`BaseHTTPRequestHandler.handle_one_request`)
answers 501 for any method without a matching `do_<METHOD>` on the handler
class; the spec calls this the file-serving primitive's default behavior.
For server.py, GET and HEAD run the router; everything else is 501. -/
def dispatchStatusServerPy (method : String) (fs : Chars → Bool)
    (p : Chars) : Nat :=
  if serverPyMethods.contains method then
    match respond fs p with
    | .ok _ => 200
    | .notFound => 404
  else 501

/-! ### Startup, bind errors and exit codes -/

/-- How a server run ends: the initial bind fails with the given `errno`, or
the serve loop is interrupted by the user. -/
inductive StartEvent where
  | bindError (errno : Nat)
  | interrupted
deriving DecidableEq, Repr

/-- server.py `run_server` (lines 116-143) and the `__main__` epilogue: the
process exit code paired with the diagnostic lines printed. `OSError` is
caught; `errno == 48` prints the port-in-use message and the port+1
suggestion, any other errno the generic message; both then return normally,
so the interpreter exits with code 0. A `KeyboardInterrupt` is also caught
and exits 0. (The emoji prefix glyphs on the printed lines are elided.) -/
def runServerPy (port : Nat) : StartEvent → Nat × List String
  | .bindError e =>
      if e == 48 then
        (0, [s!"Port {port} is already in use. Try a different port:",
             s!"   python server.py --port {port + 1}"])
      else (0, ["Error starting server"])
  | .interrupted => (0, ["Server stopped"])

/-- serve.py `run_server` (lines 61-80): the bind is not wrapped in any
handler, so an `OSError` propagates and the interpreter exits with code 1
printing only a traceback (no remediation line); `KeyboardInterrupt` is
caught inside the serve loop and runs `sys.exit(0)`. -/
def runServePy (_port : Nat) : StartEvent → Nat × List String
  | .bindError _ => (1, [])
  | .interrupted => (0, ["Server stopped by user"])

/-! ### Access log formatters -/

/-- The tag choice of serve.py `log_message` (lines 47-57): it inspects
`args[1] if len(args) > 1 else "unknown"` — under the standard
`log_request` call the arguments are `(requestline, status, size)`, so this
is the status string, not the request path. -/
def logTagServe (args : List Chars) : Chars :=
  let path := args.getD 1 "unknown".toList
  if ".js".toList.isSuffixOf path then "[JS]".toList
  else if ".css".toList.isSuffixOf path then "[CSS]".toList
  else if ".png".toList.isSuffixOf path then "[IMG]".toList
  else if ".jpg".toList.isSuffixOf path then "[IMG]".toList
  else if ".svg".toList.isSuffixOf path then "[IMG]".toList
  else "[HTML]".toList

/-- serve.py line 59: `print(f"{file_type} {format % args}")`, with the
rendered `format % args` text abstracted as `rendered`. No timestamp. -/
def logLineServe (args : List Chars) (rendered : Chars) : Chars :=
  logTagServe args ++ ' ' :: rendered

/-- server.py line 102:
`print(f"[{self.log_date_time_string()}] {format % args}")` — a timestamp
prefix and the rendered text, with no category tag. -/
def logLineServer (timestamp rendered : Chars) : Chars :=
  '[' :: timestamp ++ ']' :: ' ' :: rendered

/-- Modelled from the spec: the coarse content-type category "derived from
the request's extension" (`[JS]`, `[CSS]`, `[IMG]`, default `[HTML]`),
applied to the request path itself. -/
def specCategoryOfPath (path : Chars) : Chars :=
  if ".js".toList.isSuffixOf path then "[JS]".toList
  else if ".css".toList.isSuffixOf path then "[CSS]".toList
  else if ".png".toList.isSuffixOf path then "[IMG]".toList
  else if ".jpg".toList.isSuffixOf path then "[IMG]".toList
  else if ".svg".toList.isSuffixOf path then "[IMG]".toList
  else "[HTML]".toList

/-! ### The decode-first router (modelled from the spec for the refinement check) -/

/-- Modelled from the spec: the router as the spec describes it in §4.1
step 1, identical to `classify` except that the path is percent-decoded
before the leading separator is stripped. -/
def classifyDecoded (fs : Chars → Bool) (reqPath : Chars) : RouteOutcome :=
  classify fs (percentDecode reqPath)

/-! ### Per-request MIME-map mutation and the typed response (server.py) -/

/-- A MIME table: extension to content type, modelled as the lookup function
of the Python dict. -/
abbrev MimeMap := Chars → Option String

/-- server.py lines 21-27: `self.extensions_map.update({...})` run at every
handler construction, mutating the shared table. -/
def updateMime (m : MimeMap) : MimeMap :=
  fun ext =>
    if ext == ".js".toList then some "application/javascript"
    else if ext == ".mjs".toList then some "application/javascript"
    else if ext == ".json".toList then some "application/json"
    else if ext == ".css".toList then some "text/css"
    else if ext == ".html".toList then some "text/html"
    else m ext

/-- `SimpleHTTPRequestHandler.guess_type` against the current table, with
the generic fallback type for unknown extensions. -/
def guessType (m : MimeMap) (file : Chars) : String :=
  (m (pySuffix file)).getD "application/octet-stream"

/-- A response together with the content type derived from the MIME table. -/
inductive TypedResponse where
  | ok (file : Chars) (ctype : String)
  | notFound
deriving DecidableEq, Repr

/-- The router's response with the content type the served file gets. -/
def respondTyped (fs : Chars → Bool) (m : MimeMap) (p : Chars) : TypedResponse :=
  match respond fs p with
  | .ok f => .ok f (guessType m f)
  | .notFound => .notFound

/-- One full server.py request: handler construction updates the shared MIME
table, then the router answers using the updated table. Returns the table
state after the request and the response. -/
def serverStep (fs : Chars → Bool) (m : MimeMap) (p : Chars) :
    MimeMap × TypedResponse :=
  let m1 := updateMime m
  (m1, respondTyped fs m1 p)

/-- The asset classes named by the spec's cache-policy sentence (modelled
from the spec for comparison with `cacheControlExts`). -/
def specAssetClasses : List Chars :=
  ["js".toList, "css".toList, "png".toList, "jpg".toList,
   "svg".toList, "woff".toList, "woff2".toList]

/-! ### Helper lemmas -/

/-- The branch structure of `classify`, written as nested conditionals on
the three tests, for rewriting under an abstract filesystem. -/
theorem classify_split (fs : Chars → Bool) (p : Chars) :
    classify fs p =
      if staticExtensions.contains ((pySuffix (cleanPath p)).map charLower) then
        (if fs (cleanPath p) then .serveStatic else .serveStaticMissing)
      else if isSpaRoute (cleanPath p) then .serveEntryDocument
      else .serveFallback := by
  simp only [classify]
  cases hext : staticExtensions.contains ((pySuffix (cleanPath p)).map charLower) <;>
    cases hfs : fs (cleanPath p) <;> simp

/-- The branch structure of `respond`, unfolded through `classify_split`:
only the SPA branch replaces the target handed to the primitive. -/
theorem respond_split (fs : Chars → Bool) (p : Chars) :
    respond fs p =
      if staticExtensions.contains ((pySuffix (cleanPath p)).map charLower) then
        serveAt fs p
      else if isSpaRoute (cleanPath p) then serveAt fs "/index.html".toList
      else serveAt fs p := by
  unfold respond
  rw [classify_split]
  cases hext : staticExtensions.contains ((pySuffix (cleanPath p)).map charLower) <;>
    cases hfs : fs (cleanPath p) <;>
      cases hspa : isSpaRoute (cleanPath p) <;> simp

/-! ### C1 -/

/-- C3: every response of either handler carries the three CORS headers,
whatever headers the response already had and whatever the request path —
both `end_headers` overrides append them unconditionally. -/
theorem c3_cors_on_every_response (path : Chars)
    (prev : List (String × String)) :
    (("Access-Control-Allow-Origin", "*") ∈ endHeadersServe path prev ∧
     ("Access-Control-Allow-Methods", "GET, POST, OPTIONS")
        ∈ endHeadersServe path prev ∧
     ("Access-Control-Allow-Headers", "Content-Type")
        ∈ endHeadersServe path prev) ∧
    (("Access-Control-Allow-Origin", "*") ∈ endHeadersServer prev ∧
     ("Access-Control-Allow-Methods", "GET, POST, OPTIONS")
        ∈ endHeadersServer prev ∧
     ("Access-Control-Allow-Headers", "Content-Type")
        ∈ endHeadersServer prev) := by
  simp [endHeadersServe, endHeadersServer, corsHeaders]

/-! ### C4 -/

/-- C4 counterexample: the server.py handler implements no OPTIONS method,
so an OPTIONS request to it is answered 501 by the request loop, not 200. -/
theorem c4_counterexample :
    dispatchStatusServerPy "OPTIONS" fsEntryOnly "/anything".toList = 501 ∧
    (501 : Nat) ≠ 200 := by
  decide

/-- C4 (amended): an OPTIONS request to the serve.py server returns 200
with an empty body and the CORS headers, for every path; the server.py
server has no OPTIONS handler and answers 501. -/
theorem c4_options_preflight (path : Chars) (fs : Chars → Bool) :
    (doOptionsServe path).status = 200 ∧
    (doOptionsServe path).body = "" ∧
    ("Access-Control-Allow-Origin", "*") ∈ (doOptionsServe path).headers ∧
    ("Access-Control-Allow-Methods", "GET, POST, OPTIONS")
       ∈ (doOptionsServe path).headers ∧
    ("Access-Control-Allow-Headers", "Content-Type")
       ∈ (doOptionsServe path).headers ∧
    dispatchStatusServerPy "OPTIONS" fs path = 501 := by
  have hm : serverPyMethods.contains "OPTIONS" = false := by decide
  refine ⟨rfl, rfl, ?_, ?_, ?_, ?_⟩
  · simp [doOptionsServe, endHeadersServe, corsHeaders]
  · simp [doOptionsServe, endHeadersServe, corsHeaders]
  · simp [doOptionsServe, endHeadersServe, corsHeaders]
  · unfold dispatchStatusServerPy
    rw [hm]
    simp

/-! ### C5 -/

/-- C5 counterexample: the code tests a literal suffix of the raw
`self.path`, query string included — so `/main.js?v=1`, whose path
component `/main.js` has asset class js, receives `no-cache` instead of
the public one-hour directive the claim asserts for class-js paths. -/
theorem c5_counterexample :
    specAssetClasses.any
      (fun e => ('.' :: e).isSuffixOf (urlPath "/main.js?v=1".toList)) = true ∧
    ("Cache-Control", "no-cache") ∈ endHeadersServe "/main.js?v=1".toList [] ∧
    ("Cache-Control", "public, max-age=3600")
      ∉ endHeadersServe "/main.js?v=1".toList [] := by
  decide

/-- C5 (amended): the serve.py policy layer sends `Cache-Control: public,
max-age=3600` exactly when the raw request target `self.path` — query
string and all — literally ends in one of the dotted asset-class
extensions, and `Cache-Control: no-cache` for every other target,
assuming no Cache-Control header was sent earlier in the response. -/
theorem c5_cache_policy (path : Chars) (prev : List (String × String))
    (hprev : ∀ v, ("Cache-Control", v) ∉ prev) :
    (specAssetClasses.any (fun e => ('.' :: e).isSuffixOf path) = true →
      ("Cache-Control", "public, max-age=3600") ∈ endHeadersServe path prev ∧
      ("Cache-Control", "no-cache") ∉ endHeadersServe path prev) ∧
    (specAssetClasses.any (fun e => ('.' :: e).isSuffixOf path) = false →
      ("Cache-Control", "no-cache") ∈ endHeadersServe path prev ∧
      ("Cache-Control", "public, max-age=3600") ∉ endHeadersServe path prev) := by
  have hmatch : specAssetClasses.any (fun e => ('.' :: e).isSuffixOf path)
      = cacheControlExts.any (fun e => e.isSuffixOf path) := rfl
  constructor <;> intro h
  · rw [hmatch] at h
    have hv : cacheValue path = "public, max-age=3600" := by
      unfold cacheValue; rw [h]; simp
    unfold endHeadersServe
    rw [hv]
    constructor
    · exact List.mem_append_right _ (by decide)
    · intro hmem
      rcases List.mem_append.mp hmem with hmem | hmem
      · rcases List.mem_append.mp hmem with hmem | hmem
        · exact hprev _ hmem
        · exact absurd hmem (by decide)
      · exact absurd hmem (by decide)
  · rw [hmatch] at h
    have hv : cacheValue path = "no-cache" := by
      unfold cacheValue; rw [h]; simp
    unfold endHeadersServe
    rw [hv]
    constructor
    · exact List.mem_append_right _ (by decide)
    · intro hmem
      rcases List.mem_append.mp hmem with hmem | hmem
      · rcases List.mem_append.mp hmem with hmem | hmem
        · exact hprev _ hmem
        · exact absurd hmem (by decide)
      · exact absurd hmem (by decide)

/-- C5 witness: `/main.js` gets the public one-hour directive and
`/index.html` gets no-cache, on a response with no earlier headers. -/
theorem c5_witness :
    ("Cache-Control", "public, max-age=3600")
      ∈ endHeadersServe "/main.js".toList [] ∧
    ("Cache-Control", "no-cache") ∈ endHeadersServe "/index.html".toList [] := by
  exact ⟨((c5_cache_policy "/main.js".toList [] (by simp)).1 (by decide)).1,
         ((c5_cache_policy "/index.html".toList [] (by simp)).2 (by decide)).1⟩

/-! ### C6 -/

/-- C6 counterexample: the router does not percent-decode. For
`/%69ndex.html` (which decodes to `/index.html`) over a filesystem holding
only `index.html`, the code classifies from the undecoded characters and
404s the asset, while the decode-first router the claim describes would
serve it. -/
theorem c6_counterexample :
    percentDecode "/%69ndex.html".toList = "/index.html".toList ∧
    cleanPath "/%69ndex.html".toList = "%69ndex.html".toList ∧
    classify fsEntryOnly "/%69ndex.html".toList = .serveStaticMissing ∧
    classifyDecoded fsEntryOnly "/%69ndex.html".toList = .serveStatic ∧
    RouteOutcome.serveStaticMissing ≠ RouteOutcome.serveStatic := by
  decide

/-- C6 (amended): the router strips all leading slashes from the raw,
undecoded URL path to obtain the normalized path, and an empty normalized
path produces the same response as requesting the entry-document path
`/index.html` directly, over every filesystem. -/
theorem c6_empty_path_like_entry (fs : Chars → Bool) :
    cleanPath "/".toList = [] ∧
    respond fs "/".toList = respond fs "/index.html".toList ∧
    respond fs [] = respond fs "/index.html".toList := by
  have hidx : respond fs "/index.html".toList = serveAt fs "/index.html".toList := by
    rw [respond_split]
    rw [show staticExtensions.contains
      ((pySuffix (cleanPath "/index.html".toList)).map charLower) = true from
      by decide]
    simp
  have hroot : respond fs "/".toList = serveAt fs "/index.html".toList := by
    rw [respond_split]
    rw [show staticExtensions.contains
      ((pySuffix (cleanPath "/".toList)).map charLower) = false from by decide]
    rw [show isSpaRoute (cleanPath "/".toList) = true from by decide]
    simp
  have hnil : respond fs ([] : Chars) = serveAt fs "/index.html".toList := by
    rw [respond_split]
    rw [show staticExtensions.contains
      ((pySuffix (cleanPath ([] : Chars))).map charLower) = false from by decide]
    rw [show isSpaRoute (cleanPath ([] : Chars)) = true from by decide]
    simp
  exact ⟨by decide, by rw [hroot, hidx], by rw [hnil, hidx]⟩

/-! ### C7 -/

/-- C7 counterexample: with the port already in use (errno 48), server.py
catches the error, prints the remediation lines and returns normally, so
the process exit code is 0, not non-zero; and serve.py, which does exit
non-zero, prints no remediation line at all. -/
theorem c7_counterexample :
    (runServerPy 8000 (.bindError 48)).1 = 0 ∧
    (runServePy 8000 (.bindError 98)).2 = [] := by
  decide

/-- C7 (amended): on a bind failure with errno 48, server.py prints the
line naming the offending port and the line suggesting port+1 but exits
with code 0 (the error is swallowed); serve.py exits non-zero (uncaught
exception) with no remediation message; a clean interrupt shutdown exits 0
in both servers. -/
theorem c7_bind_failure_exit_codes (port : Nat) :
    runServerPy port (.bindError 48)
      = (0, [s!"Port {port} is already in use. Try a different port:",
             s!"   python server.py --port {port + 1}"]) ∧
    (runServePy port (.bindError 48)).1 = 1 ∧
    (runServerPy port .interrupted).1 = 0 ∧
    (runServePy port .interrupted).1 = 0 := by
  exact ⟨rfl, rfl, rfl, rfl⟩

/-! ### C8 -/

/-- C8 counterexample: under the standard logging call the second format
argument is the status code, so serve.py tags a `.js` request `[HTML]`,
whereas a category derived from the request's extension, as the claim
states, would be `[JS]`. -/
theorem c8_counterexample :
    logTagServe ["GET /main.js HTTP/1.1".toList, "200".toList, "1234".toList]
      = "[HTML]".toList ∧
    specCategoryOfPath "/main.js".toList = "[JS]".toList ∧
    "[HTML]".toList ≠ "[JS]".toList := by
  decide

/-- C8 (amended): serve.py derives the tag from the second format argument
— the status code under the standard call — so whenever that argument ends
in none of the five recognized extensions the line is tagged `[HTML]`
regardless of the request line or path; server.py prefixes a timestamp and
no category tag. -/
theorem c8_log_tag_ignores_path (reqline status size rendered : Chars)
    (h1 : ".js".toList.isSuffixOf status = false)
    (h2 : ".css".toList.isSuffixOf status = false)
    (h3 : ".png".toList.isSuffixOf status = false)
    (h4 : ".jpg".toList.isSuffixOf status = false)
    (h5 : ".svg".toList.isSuffixOf status = false) :
    logLineServe [reqline, status, size] rendered
      = "[HTML]".toList ++ ' ' :: rendered ∧
    (∀ ts r, logLineServer ts r = '[' :: ts ++ ']' :: ' ' :: r) := by
  refine ⟨?_, fun ts r => rfl⟩
  simp only [logLineServe, logTagServe]
  rw [show List.getD [reqline, status, size] 1 "unknown".toList = status from rfl]
  rw [h1, h2, h3, h4, h5]
  simp

/-- C8 witness: a logged `GET /main.js` with status 200. -/
theorem c8_witness :
    logLineServe ["GET /main.js HTTP/1.1".toList, "200".toList, "1234".toList]
      "rendered".toList = "[HTML]".toList ++ ' ' :: "rendered".toList := by
  exact (c8_log_tag_ignores_path "GET /main.js HTTP/1.1".toList "200".toList
    "1234".toList "rendered".toList (by decide) (by decide) (by decide)
    (by decide) (by decide)).1

/-! ### C9 -/

/-- C9: handling the same GET twice with no filesystem change in between
yields identical responses — the per-construction mutation of the shared
MIME table is idempotent, so the second request's routing outcome, served
file and content type all coincide with the first's. -/
theorem c9_idempotent_response (fs : Chars → Bool) (m : MimeMap) (p : Chars) :
    (serverStep fs (serverStep fs m p).1 p).2 = (serverStep fs m p).2 := by
  have hidem : updateMime (updateMime m) = updateMime m := by
    funext ext
    simp only [updateMime]
    split_ifs <;> rfl
  rw [show (serverStep fs m p).1 = updateMime m from rfl]
  rw [show (serverStep fs (updateMime m) p).2
      = respondTyped fs (updateMime (updateMime m)) p from rfl]
  rw [show (serverStep fs m p).2 = respondTyped fs (updateMime m) p from rfl]
  rw [hidem]

/-! ### C10 -/

